import Mathlib

/-!
Verification of the nasos system-service routes and ISO builder against
their natural-language specification.  JavaScript numbers are modelled as
exact rationals; the non-finite values NaN and ±Infinity that JavaScript
division can produce are modelled explicitly by the type JSNum.
-/

namespace Nasos

/-- Decimal rendering of a nonnegative value with exactly two digits after
the point, following the ECMAScript toFixed(2) rounding rule: the chosen
integer n minimises the distance of n/100 to the value, ties picking the
larger n (hence floor of the scaled value plus one half). -/
def toFixedTwoMag (q : ℚ) : String :=
  let n : ℕ := (⌊q * 100 + 1 / 2⌋).toNat
  let ip := n / 100
  let fp := n % 100
  toString ip ++ "." ++ (if fp < 10 then "0" ++ toString fp else toString fp)

/-- ECMAScript Number.prototype.toFixed(2) on a finite value: a negative
value is rendered as the sign followed by the rendering of its magnitude. -/
def toFixedTwoQ (q : ℚ) : String :=
  if q < 0 then "-" ++ toFixedTwoMag (-q) else toFixedTwoMag q

/-- A JavaScript number: either a finite value (idealised as an exact
rational) or one of the non-finite values NaN, Infinity, -Infinity. -/
inductive JSNum where
  | num (q : ℚ)
  | nan
  | inf
  | ninf
  deriving DecidableEq

namespace JSNum

/-- Whether a JavaScript number is finite. -/
def isFinite : JSNum → Bool
  | num _ => true
  | _ => false

/-- JavaScript multiplication on the JSNum model (IEEE-754 rules; the
rational model has no negative zero, so zero is treated as unsigned). -/
def mul : JSNum → JSNum → JSNum
  | nan, _ => nan
  | _, nan => nan
  | num a, num b => num (a * b)
  | inf, num b => if b = 0 then nan else if 0 < b then inf else ninf
  | num a, inf => if a = 0 then nan else if 0 < a then inf else ninf
  | ninf, num b => if b = 0 then nan else if 0 < b then ninf else inf
  | num a, ninf => if a = 0 then nan else if 0 < a then ninf else inf
  | inf, inf => inf
  | inf, ninf => ninf
  | ninf, inf => ninf
  | ninf, ninf => inf

/-- JavaScript division on the JSNum model (IEEE-754 rules; the rational
model has no negative zero, so zero is treated as unsigned). -/
def div : JSNum → JSNum → JSNum
  | nan, _ => nan
  | _, nan => nan
  | num a, num b =>
      if b = 0 then (if a = 0 then nan else if 0 < a then inf else ninf)
      else num (a / b)
  | inf, num b => if 0 ≤ b then inf else ninf
  | ninf, num b => if 0 ≤ b then ninf else inf
  | num _, inf => num 0
  | num _, ninf => num 0
  | inf, inf => nan
  | inf, ninf => nan
  | ninf, inf => nan
  | ninf, ninf => nan

/-- ECMAScript toFixed(2) on the JSNum model: non-finite values render as
their standard string forms. -/
def toFixedTwo : JSNum → String
  | num q => toFixedTwoQ q
  | nan => "NaN"
  | inf => "Infinity"
  | ninf => "-Infinity"

end JSNum

/-! ## Byte-count formatting (formatBytes, routes/system.ts) -/

/-- The unit ladder of formatBytes. -/
def bytesUnits : List String := ["B", "KB", "MB", "GB", "TB"]

/-- The while loop of formatBytes: divide by 1024 while the value is at
least 1024 and a larger unit remains.  The loop guard bounds the unit
index by bytesUnits.length - 1, so at most four iterations ever run; the
structural fuel argument is always at least that and never cuts a run
short. -/
def formatBytesGo : ℕ → ℚ → ℕ → ℚ × ℕ
  | 0, size, unitIndex => (size, unitIndex)
  | fuel + 1, size, unitIndex =>
      if 1024 ≤ size ∧ unitIndex < bytesUnits.length - 1 then
        formatBytesGo fuel (size / 1024) (unitIndex + 1)
      else (size, unitIndex)

/-- formatBytes from routes/system.ts: repeated division by 1024 along the
unit ladder, then rendering with two decimals and the unit name. -/
def formatBytes (bytes : ℚ) : String :=
  let r := formatBytesGo (bytesUnits.length - 1) bytes 0
  toFixedTwoQ r.1 ++ bytesUnits.getD r.2 ""

/-- Unit index the specification asks for: the least index whose scaled
value is below 1024, capped at the top unit. -/
def specUnitIndex (q : ℚ) : ℕ :=
  if q < 1024 then 0
  else if q < 1024 ^ 2 then 1
  else if q < 1024 ^ 3 then 2
  else if q < 1024 ^ 4 then 3
  else 4

lemma formatBytesGo_spec (q : ℚ) :
    formatBytesGo 4 q 0 = (q / 1024 ^ specUnitIndex q, specUnitIndex q) := by
  by_cases h0 : q < 1024
  · rw [specUnitIndex, if_pos h0, formatBytesGo,
      if_neg (fun h => absurd h.1 (not_le.mpr h0))]
    norm_num
  · by_cases h1 : q < 1024 ^ 2
    · have hs : q / 1024 < 1024 := by
        rw [div_lt_iff₀ (by norm_num : (0:ℚ) < 1024)]
        calc q < 1024 ^ 2 := h1
        _ = 1024 * 1024 := by norm_num
      rw [specUnitIndex, if_neg h0, if_pos h1, formatBytesGo,
        if_pos ⟨not_lt.mp h0, by norm_num [bytesUnits]⟩, formatBytesGo,
        if_neg (fun h => absurd h.1 (not_le.mpr hs))]
      norm_num
    · by_cases h2 : q < 1024 ^ 3
      · have hs1 : (1024:ℚ) ≤ q / 1024 := by
          rw [le_div_iff₀ (by norm_num : (0:ℚ) < 1024)]
          calc (1024:ℚ) * 1024 = 1024 ^ 2 := by norm_num
          _ ≤ q := not_lt.mp h1
        have hs2 : q / 1024 / 1024 < 1024 := by
          rw [div_div, div_lt_iff₀ (by norm_num : (0:ℚ) < 1024 * 1024)]
          calc q < 1024 ^ 3 := h2
          _ = 1024 * (1024 * 1024) := by norm_num
        rw [specUnitIndex, if_neg h0, if_neg h1, if_pos h2, formatBytesGo,
          if_pos ⟨not_lt.mp h0, by norm_num [bytesUnits]⟩, formatBytesGo,
          if_pos ⟨hs1, by norm_num [bytesUnits]⟩, formatBytesGo,
          if_neg (fun h => absurd h.1 (not_le.mpr hs2))]
        rw [div_div]
        norm_num
      · by_cases h3 : q < 1024 ^ 4
        · have hs1 : (1024:ℚ) ≤ q / 1024 := by
            rw [le_div_iff₀ (by norm_num : (0:ℚ) < 1024)]
            calc (1024:ℚ) * 1024 = 1024 ^ 2 := by norm_num
            _ ≤ q := le_trans (by norm_num) (not_lt.mp h2)
          have hs2 : (1024:ℚ) ≤ q / 1024 / 1024 := by
            rw [div_div, le_div_iff₀ (by norm_num : (0:ℚ) < 1024 * 1024)]
            calc (1024:ℚ) * (1024 * 1024) = 1024 ^ 3 := by norm_num
            _ ≤ q := not_lt.mp h2
          have hs3 : q / 1024 / 1024 / 1024 < 1024 := by
            rw [div_div, div_div,
              div_lt_iff₀ (by norm_num : (0:ℚ) < 1024 * (1024 * 1024))]
            calc q < 1024 ^ 4 := h3
            _ = 1024 * (1024 * (1024 * 1024)) := by norm_num
          rw [specUnitIndex, if_neg h0, if_neg h1, if_neg h2, if_pos h3,
            formatBytesGo, if_pos ⟨not_lt.mp h0, by norm_num [bytesUnits]⟩,
            formatBytesGo, if_pos ⟨hs1, by norm_num [bytesUnits]⟩,
            formatBytesGo, if_pos ⟨hs2, by norm_num [bytesUnits]⟩,
            formatBytesGo, if_neg (fun h => absurd h.1 (not_le.mpr hs3))]
          rw [div_div, div_div]
          norm_num
        · have hs1 : (1024:ℚ) ≤ q / 1024 := by
            rw [le_div_iff₀ (by norm_num : (0:ℚ) < 1024)]
            calc (1024:ℚ) * 1024 = 1024 ^ 2 := by norm_num
            _ ≤ q := le_trans (by norm_num) (not_lt.mp h3)
          have hs2 : (1024:ℚ) ≤ q / 1024 / 1024 := by
            rw [div_div, le_div_iff₀ (by norm_num : (0:ℚ) < 1024 * 1024)]
            calc (1024:ℚ) * (1024 * 1024) = 1024 ^ 3 := by norm_num
            _ ≤ q := le_trans (by norm_num) (not_lt.mp h3)
          have hs3 : (1024:ℚ) ≤ q / 1024 / 1024 / 1024 := by
            rw [div_div, div_div,
              le_div_iff₀ (by norm_num : (0:ℚ) < 1024 * (1024 * 1024))]
            calc (1024:ℚ) * (1024 * (1024 * 1024)) = 1024 ^ 4 := by norm_num
            _ ≤ q := not_lt.mp h3
          rw [specUnitIndex, if_neg h0, if_neg h1, if_neg h2, if_neg h3,
            formatBytesGo, if_pos ⟨not_lt.mp h0, by norm_num [bytesUnits]⟩,
            formatBytesGo, if_pos ⟨hs1, by norm_num [bytesUnits]⟩,
            formatBytesGo, if_pos ⟨hs2, by norm_num [bytesUnits]⟩,
            formatBytesGo, if_pos ⟨hs3, by norm_num [bytesUnits]⟩,
            formatBytesGo]
          rw [div_div, div_div, div_div]
          norm_num

/-- C1: for every byte count, formatBytes scales by the least unit whose
scaled value is below 1024 (capped at TB, where the value may exceed 1024),
i.e. it repeatedly divides by 1024 while at least 1024 remains and a unit
is left, and renders two decimals followed by the unit name. -/
theorem formatBytes_unit_ladder (q : ℚ) (_hq : 0 ≤ q) :
    formatBytes q =
      toFixedTwoQ (q / 1024 ^ specUnitIndex q) ++
        bytesUnits.getD (specUnitIndex q) "" ∧
    (specUnitIndex q < 4 → q / 1024 ^ specUnitIndex q < 1024) ∧
    (∀ j, j < specUnitIndex q → 1024 ≤ q / 1024 ^ j) := by
  have hgo : formatBytesGo 4 q 0 = (q / 1024 ^ specUnitIndex q, specUnitIndex q) :=
    formatBytesGo_spec q
  refine ⟨?_, ?_, ?_⟩
  · show toFixedTwoQ (formatBytesGo 4 q 0).1 ++
      bytesUnits.getD (formatBytesGo 4 q 0).2 "" = _
    rw [hgo]
  · intro hlt
    have hpow : ∀ i : ℕ, q < 1024 ^ (i + 1) → q / 1024 ^ i < 1024 := by
      intro i hi
      rw [div_lt_iff₀ (by positivity : (0:ℚ) < 1024 ^ i)]
      calc q < 1024 ^ (i + 1) := hi
      _ = 1024 * 1024 ^ i := by rw [pow_succ]; ring
    unfold specUnitIndex at hlt ⊢
    by_cases h0 : q < 1024
    · simp [h0]
    · by_cases h1 : q < 1024 ^ 2
      · simpa [h0, h1] using hpow 1 h1
      · by_cases h2 : q < 1024 ^ 3
        · simpa [h0, h1, h2] using hpow 2 h2
        · by_cases h3 : q < 1024 ^ 4
          · simpa [h0, h1, h2, h3] using hpow 3 h3
          · simp [h0, h1, h2, h3] at hlt
  · intro j hj
    have hpow : ∀ i : ℕ, 1024 ^ i ≤ q → ∀ j, j < i → 1024 ≤ q / 1024 ^ j := by
      intro i hi j hji
      rw [le_div_iff₀ (by positivity : (0:ℚ) < 1024 ^ j)]
      calc (1024:ℚ) * 1024 ^ j = 1024 ^ (j + 1) := by rw [pow_succ]; ring
      _ ≤ 1024 ^ i := pow_le_pow_right₀ (by norm_num) (by omega)
      _ ≤ q := hi
    unfold specUnitIndex at hj
    by_cases h0 : q < 1024
    · simp [h0] at hj
    · by_cases h1 : q < 1024 ^ 2
      · exact hpow 1 (by simpa using not_lt.mp h0) j (by simpa [h0, h1] using hj)
      · by_cases h2 : q < 1024 ^ 3
        · exact hpow 2 (not_lt.mp h1) j (by simpa [h0, h1, h2] using hj)
        · by_cases h3 : q < 1024 ^ 4
          · exact hpow 3 (not_lt.mp h2) j (by simpa [h0, h1, h2, h3] using hj)
          · exact hpow 4 (not_lt.mp h3) j (by simpa [h0, h1, h2, h3] using hj)

/-- The scaled value and unit index formatBytes renders, in closed form
(shared evaluation lemma). -/
lemma formatBytes_closed (q : ℚ) :
    formatBytes q =
      toFixedTwoQ (q / 1024 ^ specUnitIndex q) ++
        bytesUnits.getD (specUnitIndex q) "" := by
  show toFixedTwoQ (formatBytesGo 4 q 0).1 ++
    bytesUnits.getD (formatBytesGo 4 q 0).2 "" = _
  rw [formatBytesGo_spec]

/-- Evaluation of formatBytes below the first threshold. -/
lemma formatBytes_lt1024 (q : ℚ) (h1 : q < 1024) (h0 : ¬q < 0) (s : String)
    (h : toFixedTwoMag q = s) : formatBytes q = s ++ "B" := by
  rw [formatBytes_closed]
  have hidx : specUnitIndex q = 0 := by rw [specUnitIndex, if_pos h1]
  rw [hidx, pow_zero, div_one, toFixedTwoQ, if_neg h0, h]
  rfl

/-- Witness for C1 at the concrete byte count 2048. -/
theorem formatBytes_unit_ladder_witness : formatBytes (2048 : ℚ) = "2.00KB" := by
  have h := (formatBytes_unit_ladder 2048 (by norm_num)).1
  have hidx : specUnitIndex 2048 = 1 := by norm_num [specUnitIndex]
  have hq : (2048 : ℚ) / 1024 ^ 1 = 2 := by norm_num
  have hfl : ⌊(2 : ℚ) * 100 + 1 / 2⌋ = 200 := by norm_num
  rw [h, hidx, hq, toFixedTwoQ, if_neg (by norm_num : ¬(2 : ℚ) < 0),
    toFixedTwoMag, hfl]
  decide

/-! ## Docker per-container stats (routes/system.ts, docker plugin) -/

/-- cpu_usage of a Docker stats sample. -/
structure CpuUsage where
  total_usage : ℚ
  deriving DecidableEq

/-- cpu_stats of a Docker stats sample. -/
structure CpuStats where
  cpu_usage : CpuUsage
  system_cpu_usage : ℚ
  online_cpus : ℚ
  deriving DecidableEq

/-- precpu_stats of a Docker stats sample. -/
structure PreCpuStats where
  cpu_usage : CpuUsage
  system_cpu_usage : ℚ
  deriving DecidableEq

/-- memory_stats of a Docker stats sample. -/
structure MemoryStats where
  usage : ℚ
  limit : ℚ
  deriving DecidableEq

/-- One network interface entry of a Docker stats sample. -/
structure NetEntry where
  rx_bytes : ℚ
  tx_bytes : ℚ
  deriving DecidableEq

/-- One io_service_bytes_recursive entry of a Docker stats sample. -/
structure BlockIOEntry where
  op : String
  value : ℚ
  deriving DecidableEq

/-- blkio_stats of a Docker stats sample. -/
structure BlkioStats where
  io_service_bytes_recursive : Option (List BlockIOEntry)
  deriving DecidableEq

/-- A Docker stats sample as consumed by the stats helpers: the networks
object is modelled as a keyed list (Object.values preserves its order), and
the optional fields mirror the optional chaining in the source. -/
structure DockerStats where
  cpu_stats : CpuStats
  precpu_stats : PreCpuStats
  memory_stats : MemoryStats
  networks : Option (List (String × NetEntry))
  blkio_stats : Option BlkioStats
  deriving DecidableEq

/-- calculateCPUPercentage from routes/system.ts: delta of total usage over
delta of system usage, times online CPUs, times 100, with JavaScript
division semantics. -/
def calculateCPUPercentage (stats : DockerStats) : JSNum :=
  let cpuDelta :=
    stats.cpu_stats.cpu_usage.total_usage - stats.precpu_stats.cpu_usage.total_usage
  let systemDelta :=
    stats.cpu_stats.system_cpu_usage - stats.precpu_stats.system_cpu_usage
  let cpuCount := stats.cpu_stats.online_cpus
  JSNum.mul
    (JSNum.mul (JSNum.div (JSNum.num cpuDelta) (JSNum.num systemDelta))
      (JSNum.num cpuCount))
    (JSNum.num 100)

/-- formatMemoryUsage from routes/system.ts. -/
def formatMemoryUsage (stats : DockerStats) : String :=
  let used := stats.memory_stats.usage
  let limit := stats.memory_stats.limit
  let percent :=
    JSNum.toFixedTwo
      (JSNum.mul (JSNum.div (JSNum.num used) (JSNum.num limit)) (JSNum.num 100))
  formatBytes used ++ " / " ++ formatBytes limit ++ " (" ++ percent ++ "%)"

/-- formatNetworkIO from routes/system.ts: both directions reduce over all
values of the networks object, starting from 0. -/
def formatNetworkIo (stats : DockerStats) : String :=
  let rx := ((stats.networks.getD []).map Prod.snd).foldl
    (fun acc net => acc + net.rx_bytes) 0
  let tx := ((stats.networks.getD []).map Prod.snd).foldl
    (fun acc net => acc + net.tx_bytes) 0
  "↓" ++ formatBytes rx ++ " / ↑" ++ formatBytes tx

/-- formatBlockIO from routes/system.ts: the read and write figures come
from Array.prototype.find, i.e. the first entry whose op matches, with 0
when the chain is absent or no entry matches. -/
def formatBlockIo (stats : DockerStats) : String :=
  let entries := (stats.blkio_stats.bind
    (fun b => b.io_service_bytes_recursive)).getD []
  let read := ((entries.find? (fun s => s.op == "Read")).map
    (fun s => s.value)).getD 0
  let write := ((entries.find? (fun s => s.op == "Write")).map
    (fun s => s.value)).getD 0
  "↓" ++ formatBytes read ++ " / ↑" ++ formatBytes write

/-- The per-container record built by the GET /stats handler. -/
structure ContainerStatsEntry where
  name : String
  cpu : String
  memory : String
  network : String
  disk : String
  deriving DecidableEq

/-- The record the GET /stats handler returns for one container: the cpu
percentage is formatted with toFixed(2) and a percent sign, whatever value
the division produced. -/
def containerStatsEntry (name : String) (stats : DockerStats) : ContainerStatsEntry :=
  { name := name
    cpu := JSNum.toFixedTwo (calculateCPUPercentage stats) ++ "%"
    memory := formatMemoryUsage stats
    network := formatNetworkIo stats
    disk := formatBlockIo stats }

/-- A sample with cpuDelta 200, systemDelta 1000 and 4 online CPUs. -/
def exampleCpuStats : DockerStats :=
  { cpu_stats := { cpu_usage := ⟨300⟩, system_cpu_usage := 1500, online_cpus := 4 }
    precpu_stats := { cpu_usage := ⟨100⟩, system_cpu_usage := 500 }
    memory_stats := ⟨0, 1⟩
    networks := none
    blkio_stats := none }

/-- Division of two finite JavaScript numbers with nonzero divisor is the
exact rational quotient. -/
lemma jsnum_div_num_num (a b : ℚ) (hb : b ≠ 0) :
    JSNum.div (JSNum.num a) (JSNum.num b) = JSNum.num (a / b) := by
  have h : JSNum.div (JSNum.num a) (JSNum.num b) =
      if b = 0 then (if a = 0 then JSNum.nan else if 0 < a then JSNum.inf else JSNum.ninf)
      else JSNum.num (a / b) := rfl
  rw [h, if_neg hb]

/-- Multiplication of two finite JavaScript numbers is the exact rational
product. -/
lemma jsnum_mul_num_num (a b : ℚ) :
    JSNum.mul (JSNum.num a) (JSNum.num b) = JSNum.num (a * b) := rfl

/-- C2: the CPU percentage is exactly (cpuDelta/systemDelta)·onlineCPUs·100
whenever the system delta is nonzero, and the synthetic sample with
cpuDelta 200, systemDelta 1000 and 4 CPUs formats as 80.00%. -/
theorem calculateCPUPercentage_formula :
    (∀ s : DockerStats,
      s.cpu_stats.system_cpu_usage - s.precpu_stats.system_cpu_usage ≠ 0 →
      calculateCPUPercentage s =
        JSNum.num
          ((s.cpu_stats.cpu_usage.total_usage - s.precpu_stats.cpu_usage.total_usage) /
              (s.cpu_stats.system_cpu_usage - s.precpu_stats.system_cpu_usage) *
            s.cpu_stats.online_cpus * 100)) ∧
    JSNum.toFixedTwo (calculateCPUPercentage exampleCpuStats) ++ "%" = "80.00%" := by
  constructor
  · intro s hs
    simp only [calculateCPUPercentage]
    rw [jsnum_div_num_num _ _ hs, jsnum_mul_num_num, jsnum_mul_num_num]
  · have h1 : calculateCPUPercentage exampleCpuStats =
        JSNum.mul
          (JSNum.mul
            (JSNum.div (JSNum.num (300 - 100)) (JSNum.num (1500 - 500)))
            (JSNum.num 4))
          (JSNum.num 100) := rfl
    have e0 : calculateCPUPercentage exampleCpuStats = JSNum.num 80 := by
      rw [h1, jsnum_div_num_num _ _ (by norm_num), jsnum_mul_num_num,
        jsnum_mul_num_num]
      norm_num
    rw [e0, JSNum.toFixedTwo, toFixedTwoQ, if_neg (by norm_num : ¬(80:ℚ) < 0),
      toFixedTwoMag, (by norm_num : ⌊(80:ℚ) * 100 + 1 / 2⌋ = 8000)]
    decide

/-- Witness for C2 at the synthetic sample. -/
theorem calculateCPUPercentage_formula_witness :
    calculateCPUPercentage exampleCpuStats = JSNum.num 80 := by
  have h := calculateCPUPercentage_formula.1 exampleCpuStats
    (by norm_num [exampleCpuStats])
  rw [h]
  have e : (exampleCpuStats.cpu_stats.cpu_usage.total_usage -
        exampleCpuStats.precpu_stats.cpu_usage.total_usage) /
        (exampleCpuStats.cpu_stats.system_cpu_usage -
          exampleCpuStats.precpu_stats.system_cpu_usage) *
        exampleCpuStats.cpu_stats.online_cpus * 100 = 80 := by
    norm_num [exampleCpuStats]
  rw [e]

/-- Folding addition of a projection equals the sum of the mapped list. -/
lemma foldl_add_map {α : Type} (f : α → ℚ) :
    ∀ (l : List α) (a : ℚ),
      l.foldl (fun acc x => acc + f x) a = a + (l.map f).sum
  | [], a => by simp
  | x :: l, a => by
      simp only [List.foldl_cons, List.map_cons, List.sum_cons, foldl_add_map f l]
      ring

/-- find? returns the head of the filtered list. -/
lemma find?_eq_head_filter {α : Type} (p : α → Bool) :
    ∀ l : List α, l.find? p = (l.filter p).head?
  | [] => rfl
  | x :: l => by
      by_cases h : p x
      · simp [List.find?_cons, List.filter_cons, h]
      · simp only [List.find?_cons, List.filter_cons, h, cond_false, if_false,
          Bool.false_eq_true]
        exact find?_eq_head_filter p l

/-- The block I/O figure as the specification words it: read and write byte
counters summed over all devices present in io_service_bytes_recursive.
Modelled from the spec sentence, for comparison against formatBlockIo. -/
def specSumBlockIo (stats : DockerStats) : String :=
  let entries := (stats.blkio_stats.bind
    (fun b => b.io_service_bytes_recursive)).getD []
  let read := ((entries.filter (fun s => s.op == "Read")).map
    (fun s => s.value)).sum
  let write := ((entries.filter (fun s => s.op == "Write")).map
    (fun s => s.value)).sum
  "↓" ++ formatBytes read ++ " / ↑" ++ formatBytes write

/-- A sample whose io_service_bytes_recursive holds two Read entries, with
values 1 and 2. -/
def blkDupStats : DockerStats :=
  { cpu_stats := { cpu_usage := ⟨0⟩, system_cpu_usage := 0, online_cpus := 0 }
    precpu_stats := { cpu_usage := ⟨0⟩, system_cpu_usage := 0 }
    memory_stats := ⟨0, 1⟩
    networks := none
    blkio_stats := some ⟨some [⟨"Read", 1⟩, ⟨"Read", 2⟩]⟩ }

lemma formatBytes_zero : formatBytes (0 : ℚ) = "0.00B" := by
  have h : toFixedTwoMag 0 = "0.00" := by
    rw [toFixedTwoMag, (by norm_num : ⌊(0:ℚ) * 100 + 1 / 2⌋ = 0)]
    decide
  exact formatBytes_lt1024 0 (by norm_num) (by norm_num) _ h

lemma formatBytes_one : formatBytes (1 : ℚ) = "1.00B" := by
  have h : toFixedTwoMag 1 = "1.00" := by
    rw [toFixedTwoMag, (by norm_num : ⌊(1:ℚ) * 100 + 1 / 2⌋ = 100)]
    decide
  exact formatBytes_lt1024 1 (by norm_num) (by norm_num) _ h

lemma formatBytes_three : formatBytes (3 : ℚ) = "3.00B" := by
  have h : toFixedTwoMag 3 = "3.00" := by
    rw [toFixedTwoMag, (by norm_num : ⌊(3:ℚ) * 100 + 1 / 2⌋ = 300)]
    decide
  exact formatBytes_lt1024 3 (by norm_num) (by norm_num) _ h

/-- C3 counterexample: on a sample with two Read devices of 1 and 2 bytes,
the code reports the first entry (1.00B), not the sum (3.00B) the claim
asks for. -/
theorem formatBlockIo_not_summed_cex :
    formatBlockIo blkDupStats = "↓1.00B / ↑0.00B" ∧
    specSumBlockIo blkDupStats = "↓3.00B / ↑0.00B" ∧
    formatBlockIo blkDupStats ≠ specSumBlockIo blkDupStats := by
  have hrw : (("Read" : String) == "Write") = false := by decide
  have hcode : formatBlockIo blkDupStats = "↓1.00B / ↑0.00B" := by
    rw [formatBlockIo]
    norm_num [blkDupStats, List.find?, hrw, formatBytes_zero, formatBytes_one]
    decide
  have hspec : specSumBlockIo blkDupStats = "↓3.00B / ↑0.00B" := by
    rw [specSumBlockIo]
    norm_num [blkDupStats, List.filter, hrw, formatBytes_zero, formatBytes_three]
    decide
  refine ⟨hcode, hspec, ?_⟩
  rw [hcode, hspec]
  decide

/-- C3 amended: the network figures are indeed summed over every interface
in the sample, but the block figures are the value of the first entry
labelled Read respectively Write of io_service_bytes_recursive (0 when
absent), not a sum over all devices. -/
theorem networkIo_summed_blockIo_first (s : DockerStats) :
    formatNetworkIo s =
      "↓" ++ formatBytes (((s.networks.getD []).map (fun p => p.2.rx_bytes)).sum) ++
        " / ↑" ++
        formatBytes (((s.networks.getD []).map (fun p => p.2.tx_bytes)).sum) ∧
    formatBlockIo s =
      "↓" ++
        formatBytes
          ((((((s.blkio_stats.bind (fun b => b.io_service_bytes_recursive)).getD
            []).filter (fun e => e.op == "Read")).head?).map
            (fun e => e.value)).getD 0) ++
        " / ↑" ++
        formatBytes
          ((((((s.blkio_stats.bind (fun b => b.io_service_bytes_recursive)).getD
            []).filter (fun e => e.op == "Write")).head?).map
            (fun e => e.value)).getD 0) := by
  constructor
  · rw [formatNetworkIo]
    simp only [foldl_add_map, zero_add, List.map_map]
    rfl
  · rw [formatBlockIo]
    simp only [find?_eq_head_filter]

/-! ## C10: division by zero system delta -/

lemma jsnum_mul_num_not_finite (x : JSNum) (q : ℚ)
    (hx : x.isFinite = false) : (JSNum.mul x (JSNum.num q)).isFinite = false := by
  cases x with
  | num a => simp [JSNum.isFinite] at hx
  | nan => rfl
  | inf =>
      rw [JSNum.mul]
      split_ifs <;> rfl
  | ninf =>
      rw [JSNum.mul]
      split_ifs <;> rfl

lemma jsnum_div_num_zero_not_finite (a : ℚ) :
    (JSNum.div (JSNum.num a) (JSNum.num 0)).isFinite = false := by
  have h : JSNum.div (JSNum.num a) (JSNum.num 0) =
      if (0:ℚ) = 0 then
        (if a = 0 then JSNum.nan else if 0 < a then JSNum.inf else JSNum.ninf)
      else JSNum.num (a / 0) := rfl
  rw [h, if_pos rfl]
  split_ifs <;> rfl

lemma jsnum_not_finite_toFixedTwo (x : JSNum) (hx : x.isFinite = false) :
    x.toFixedTwo = "NaN" ∨ x.toFixedTwo = "Infinity" ∨ x.toFixedTwo = "-Infinity" := by
  cases x with
  | num a => simp [JSNum.isFinite] at hx
  | nan => exact Or.inl rfl
  | inf => exact Or.inr (Or.inl rfl)
  | ninf => exact Or.inr (Or.inr rfl)

/-- C10: when the two system_cpu_usage counters coincide the division is by
zero, the resulting CPU percentage is not finite, and the stats handler
still renders it with toFixed(2) and a percent sign — producing NaN%,
Infinity% or -Infinity% — rather than reporting an error.  Conversely a
finite result forces a nonzero system delta. -/
theorem cpu_percentage_systemDelta_zero (n : String) (s : DockerStats)
    (h : s.cpu_stats.system_cpu_usage = s.precpu_stats.system_cpu_usage) :
    (calculateCPUPercentage s).isFinite = false ∧
    (containerStatsEntry n s).cpu =
      JSNum.toFixedTwo (calculateCPUPercentage s) ++ "%" ∧
    ((containerStatsEntry n s).cpu = "NaN%" ∨
      (containerStatsEntry n s).cpu = "Infinity%" ∨
      (containerStatsEntry n s).cpu = "-Infinity%") ∧
    (∀ t : DockerStats, (calculateCPUPercentage t).isFinite = true →
      t.cpu_stats.system_cpu_usage - t.precpu_stats.system_cpu_usage ≠ 0) := by
  have hΔ : s.cpu_stats.system_cpu_usage - s.precpu_stats.system_cpu_usage = 0 :=
    sub_eq_zero_of_eq h
  have hnotfin : ∀ t : DockerStats,
      t.cpu_stats.system_cpu_usage - t.precpu_stats.system_cpu_usage = 0 →
      (calculateCPUPercentage t).isFinite = false := by
    intro t ht
    rw [calculateCPUPercentage, ht]
    exact jsnum_mul_num_not_finite _ _
      (jsnum_mul_num_not_finite _ _ (jsnum_div_num_zero_not_finite _))
  have h1 : (calculateCPUPercentage s).isFinite = false := hnotfin s hΔ
  refine ⟨h1, rfl, ?_, ?_⟩
  · have h2 := jsnum_not_finite_toFixedTwo _ h1
    show JSNum.toFixedTwo (calculateCPUPercentage s) ++ "%" = _ ∨
      JSNum.toFixedTwo (calculateCPUPercentage s) ++ "%" = _ ∨
      JSNum.toFixedTwo (calculateCPUPercentage s) ++ "%" = _
    rcases h2 with h2 | h2 | h2 <;> rw [h2]
    · exact Or.inl rfl
    · exact Or.inr (Or.inl rfl)
    · exact Or.inr (Or.inr rfl)
  · intro t hfin
    intro hzero
    rw [hnotfin t hzero] at hfin
    exact Bool.false_ne_true hfin

/-- A sample whose system counter did not advance between the two samples. -/
def zeroDeltaStats : DockerStats :=
  { cpu_stats := { cpu_usage := ⟨150⟩, system_cpu_usage := 1000, online_cpus := 2 }
    precpu_stats := { cpu_usage := ⟨100⟩, system_cpu_usage := 1000 }
    memory_stats := ⟨0, 1⟩
    networks := none
    blkio_stats := none }

/-- Witness for C10 at a concrete zero-system-delta sample. -/
theorem cpu_percentage_systemDelta_zero_witness :
    (calculateCPUPercentage zeroDeltaStats).isFinite = false := by
  exact (cpu_percentage_systemDelta_zero "web" zeroDeltaStats rfl).1

/-! ## GET /info (systemRoutes, routes/system.ts) -/

/-- A JSON value, enough to state which keys a response object carries. -/
inductive Json where
  | str (s : String)
  | num (q : ℚ)
  | jbool (b : Bool)
  | jnull
  | arr (items : List Json)
  | obj (fields : List (String × Json))

/-- The keys of a JSON object (empty for non-objects). -/
def Json.keys : Json → List String
  | obj fields => fields.map Prod.fst
  | _ => []

/-- Result shape of si.cpu(). -/
structure SiCpu where
  manufacturer : String
  brand : String
  cores : ℚ
  physicalCores : ℚ

/-- Result shape of si.mem(). -/
structure SiMem where
  total : ℚ
  free : ℚ
  used : ℚ
  active : ℚ
  available : ℚ

/-- Result shape of si.osInfo(); uptime is optional, mirroring the ?? in
the handler. -/
structure SiOsInfo where
  hostname : String
  platform : String
  distro : String
  release : String
  arch : String
  uptime : Option ℚ

/-- Result shape of si.system(). -/
structure SiSystem where
  manufacturer : String
  model : String
  serial : String

/-- One per-CPU load entry of si.currentLoad(). -/
structure SiCpuLoad where
  load : ℚ

/-- Result shape of si.currentLoad(); avgLoad is optional, mirroring the
?? in the handler. -/
structure SiCurrentLoad where
  avgLoad : Option ℚ
  currentLoad : ℚ
  cpus : List SiCpuLoad

/-- One entry of si.services. -/
structure SiService where
  name : String
  running : Bool
  startmode : String

/-- Result shape of si.dockerInfo(); every counter is optional, mirroring
the ?? defaults in the handler. -/
structure SiDockerInfo where
  containers : Option ℚ
  containersRunning : Option ℚ
  containersPaused : Option ℚ
  containersStopped : Option ℚ
  images : Option ℚ

/-- The basicInfo object of the GET /info handler. -/
def basicInfoFields (cpu : SiCpu) (mem : SiMem) (os : SiOsInfo)
    (processUptime : ℚ) : List (String × Json) :=
  [("hostname", .str os.hostname),
   ("platform", .str os.platform),
   ("distro", .str os.distro),
   ("release", .str os.release),
   ("arch", .str os.arch),
   ("uptime", .num (os.uptime.getD ((⌊processUptime⌋ : ℤ) : ℚ))),
   ("cpu", .obj [("manufacturer", .str cpu.manufacturer),
                 ("brand", .str cpu.brand),
                 ("cores", .num cpu.cores),
                 ("physicalCores", .num cpu.physicalCores)]),
   ("memory", .obj [("total", .num mem.total),
                    ("free", .num mem.free),
                    ("used", .num mem.used),
                    ("active", .num mem.active),
                    ("available", .num mem.available)])]

/-- The GET /info response: the basic object alone when the parsed detailed
flag is false, otherwise the basic object extended with the system, load,
services and docker keys. -/
def infoResponse (detailed : Bool) (cpu : SiCpu) (mem : SiMem) (os : SiOsInfo)
    (system : SiSystem) (processUptime : ℚ) (load : SiCurrentLoad)
    (services : List SiService) (dockerInfo : SiDockerInfo) : Json :=
  if detailed = false then Json.obj (basicInfoFields cpu mem os processUptime)
  else
    Json.obj (basicInfoFields cpu mem os processUptime ++
      [("system", .obj [("manufacturer", .str system.manufacturer),
                        ("model", .str system.model),
                        ("serial", .str system.serial)]),
       ("load", .obj [("avgLoad", .num (load.avgLoad.getD load.currentLoad)),
                      ("currentLoad", .num load.currentLoad),
                      ("cpuLoad", .arr (load.cpus.map (fun c => Json.num c.load)))]),
       ("services", .arr (services.map (fun s =>
         Json.obj [("name", .str s.name),
                   ("running", .jbool s.running),
                   ("startmode", .str s.startmode)]))),
       ("docker", .obj [("containers",
           .obj [("total", .num (dockerInfo.containers.getD 0)),
                 ("running", .num (dockerInfo.containersRunning.getD 0)),
                 ("paused", .num (dockerInfo.containersPaused.getD 0)),
                 ("stopped", .num (dockerInfo.containersStopped.getD 0))]),
         ("images", .num (dockerInfo.images.getD 0))])])

/-- The keys of the basic response, as the specification lists them. -/
def basicInfoKeys : List String :=
  ["hostname", "platform", "distro", "release", "arch", "uptime", "cpu", "memory"]

/-- C4: with detailed=false the response carries exactly the basic keys and
none of system, load, services, docker; with detailed=true it carries the
basic keys plus exactly those four. -/
theorem infoResponse_detailed_keys (cpu : SiCpu) (mem : SiMem) (os : SiOsInfo)
    (system : SiSystem) (processUptime : ℚ) (load : SiCurrentLoad)
    (services : List SiService) (dockerInfo : SiDockerInfo) :
    (infoResponse false cpu mem os system processUptime load services
        dockerInfo).keys = basicInfoKeys ∧
    "system" ∉ (infoResponse false cpu mem os system processUptime load services
        dockerInfo).keys ∧
    "load" ∉ (infoResponse false cpu mem os system processUptime load services
        dockerInfo).keys ∧
    "services" ∉ (infoResponse false cpu mem os system processUptime load
        services dockerInfo).keys ∧
    "docker" ∉ (infoResponse false cpu mem os system processUptime load services
        dockerInfo).keys ∧
    (infoResponse true cpu mem os system processUptime load services
        dockerInfo).keys =
      basicInfoKeys ++ ["system", "load", "services", "docker"] := by
  have hfalse : (infoResponse false cpu mem os system processUptime load
      services dockerInfo).keys = basicInfoKeys := rfl
  have htrue : (infoResponse true cpu mem os system processUptime load services
      dockerInfo).keys = basicInfoKeys ++ ["system", "load", "services", "docker"] := rfl
  refine ⟨hfalse, ?_, ?_, ?_, ?_, htrue⟩ <;> rw [hfalse] <;> decide

/-! ## GET /logs fallback (systemRoutes, routes/system.ts) -/

/-- The sentinel string returned when both log sources fail. -/
def noLogsSentinel : String := "No system logs available"

/-- The GET /logs handler outcome, as a function of the two command
outcomes: journalctl output if that command succeeded, else the flat-file
tail output if that succeeded, else the sentinel.  An Option models each
command: some stdout on success, none on failure. -/
def getLogs (journal fileTail : Option String) : String :=
  match journal with
  | some out => out
  | none =>
    match fileTail with
    | some out => out
    | none => noLogsSentinel

/-- C5 counterexample: the claimed equivalence "result is the sentinel iff
both sources fail" is false when journalctl succeeds and its own output
happens to be exactly the sentinel string. -/
theorem getLogs_sentinel_iff_cex :
    ¬(getLogs (some noLogsSentinel) none = noLogsSentinel ↔
      ((some noLogsSentinel : Option String) = none ∧
        (none : Option String) = none)) := by
  intro h
  rcases h.mp rfl with ⟨h1, _⟩
  exact Option.noConfusion h1

/-- C5 amended: journalctl output wins when it succeeds, else the flat-file
output when that succeeds, the sentinel is returned when both fail, the two
outputs are never merged, and the result equals the sentinel only when both
sources failed or the winning source itself printed exactly the sentinel
string. -/
theorem getLogs_fallback (j f : Option String) :
    (∀ s, j = some s → getLogs j f = s) ∧
    (j = none → ∀ t, f = some t → getLogs j f = t) ∧
    (j = none ∧ f = none → getLogs j f = noLogsSentinel) ∧
    (getLogs j f = noLogsSentinel →
      (j = none ∧ f = none) ∨ j = some noLogsSentinel ∨
        (j = none ∧ f = some noLogsSentinel)) := by
  cases j with
  | some s => exact ⟨fun t ht => by cases ht; rfl,
      fun h => Option.noConfusion h,
      fun h => Option.noConfusion h.1,
      fun h => Or.inr (Or.inl (by rw [← h]; rfl))⟩
  | none =>
    cases f with
    | some t => exact ⟨fun s hs => Option.noConfusion hs,
        fun _ u hu => by cases hu; rfl,
        fun h => Option.noConfusion h.2,
        fun h => Or.inr (Or.inr ⟨rfl, by rw [← h]; rfl⟩)⟩
    | none => exact ⟨fun s hs => Option.noConfusion hs,
        fun _ u hu => Option.noConfusion hu,
        fun _ => rfl,
        fun _ => Or.inl ⟨rfl, rfl⟩⟩

/-- Witness for C5's amended theorem: concrete journal success wins. -/
theorem getLogs_fallback_witness :
    getLogs (some "kernel: boot") (some "tail line") = "kernel: boot" :=
  (getLogs_fallback (some "kernel: boot") (some "tail line")).1 "kernel: boot" rfl

/-! ## DELETE /containers/:id and /images/:id (dockerRoutes) -/

/-- Options passed to the Docker remove call. -/
structure RemoveOpts where
  force : Bool
  deriving DecidableEq

/-- The remove call the container DELETE handler issues. -/
structure ContainerRemoveCall where
  id : String
  opts : RemoveOpts
  deriving DecidableEq

/-- The remove call the image DELETE handler issues. -/
structure ImageRemoveCall where
  id : String
  opts : RemoveOpts
  deriving DecidableEq

/-- DELETE /containers/:id: the schema parses a force flag (with default
false), but the handler always calls remove with force set to false. -/
def deleteContainerHandler (id : String) (force : Bool) :
    ContainerRemoveCall × String :=
  (⟨id, ⟨false⟩⟩, "removed")

/-- DELETE /images/:id: the schema parses a force flag (with default
false), but the handler always calls remove with force set to false. -/
def deleteImageHandler (id : String) (force : Bool) :
    ImageRemoveCall × String :=
  (⟨id, ⟨false⟩⟩, "removed")

/-- C9: two DELETE requests differing only in the force parameter issue the
identical remove call, and that call always has force = false. -/
theorem deleteHandlers_ignore_force (idC idI : String) (f₁ f₂ : Bool) :
    deleteContainerHandler idC f₁ = deleteContainerHandler idC f₂ ∧
    (deleteContainerHandler idC f₁).1.opts.force = false ∧
    deleteImageHandler idI f₁ = deleteImageHandler idI f₂ ∧
    (deleteImageHandler idI f₁).1.opts.force = false :=
  ⟨rfl, rfl, rfl, rfl⟩

/-! ## ISO build pipeline (buildIso, iso-builder) -/

/-- The six steps of the ISO build pipeline, in source order. -/
inductive IsoStep where
  | setupBuildEnvironment
  | downloadBaseSystem
  | configureSystem
  | installPackages
  | installNestOSComponents
  | createISO
  deriving DecidableEq

/-- Position of a step in the pipeline. -/
def stepIndex : IsoStep → ℕ
  | .setupBuildEnvironment => 0
  | .downloadBaseSystem => 1
  | .configureSystem => 2
  | .installPackages => 3
  | .installNestOSComponents => 4
  | .createISO => 5

/-- The await sequence of buildIso. -/
def isoSequence : List IsoStep :=
  [.setupBuildEnvironment, .downloadBaseSystem, .configureSystem,
   .installPackages, .installNestOSComponents, .createISO]

/-- Run of the try block of buildIso over the steps still pending, given
which steps succeed: a step executes, and on failure the catch block calls
process.exit(1), so nothing after it runs; full success exits 0. The first
component lists the steps that executed, the second is the exit code. -/
def runIsoSteps (ok : IsoStep → Bool) : List IsoStep → List IsoStep × ℕ
  | [] => ([], 0)
  | s :: rest =>
    if ok s then
      let r := runIsoSteps ok rest
      (s :: r.1, r.2)
    else ([s], 1)

/-- buildIso from the ISO builder: the six steps awaited strictly in order
inside one try block whose catch exits with status 1. -/
def buildIso (ok : IsoStep → Bool) : List IsoStep × ℕ :=
  runIsoSteps ok isoSequence

/-- C6: if a step fails (all earlier ones having succeeded) the process
exits non-zero and no later step executes; if every step succeeds, the
executed steps are exactly the six, once each, in pipeline order, with
exit code 0. -/
theorem buildIso_abort_on_failure (ok : IsoStep → Bool) :
    (∀ s : IsoStep, ok s = false →
      (∀ t : IsoStep, stepIndex t < stepIndex s → ok t = true) →
      (buildIso ok).2 ≠ 0 ∧
        ∀ t : IsoStep, stepIndex s < stepIndex t → t ∉ (buildIso ok).1) ∧
    ((∀ s : IsoStep, ok s = true) → buildIso ok = (isoSequence, 0)) := by
  constructor
  · intro s hs hprev
    cases s
    · have h0 : ok .setupBuildEnvironment = false := hs
      rw [buildIso, isoSequence, runIsoSteps, if_neg (by rw [h0]; exact Bool.false_ne_true)]
      exact ⟨one_ne_zero, by intro t ht; cases t <;> simp_all [stepIndex]⟩
    · have h0 : ok .setupBuildEnvironment = true := hprev _ (by decide)
      have h1 : ok .downloadBaseSystem = false := hs
      rw [buildIso, isoSequence, runIsoSteps, if_pos (by rw [h0]),
        runIsoSteps, if_neg (by rw [h1]; exact Bool.false_ne_true)]
      exact ⟨one_ne_zero, by intro t ht; cases t <;> simp_all [stepIndex]⟩
    · have h0 : ok .setupBuildEnvironment = true := hprev _ (by decide)
      have h1 : ok .downloadBaseSystem = true := hprev _ (by decide)
      have h2 : ok .configureSystem = false := hs
      rw [buildIso, isoSequence, runIsoSteps, if_pos (by rw [h0]),
        runIsoSteps, if_pos (by rw [h1]),
        runIsoSteps, if_neg (by rw [h2]; exact Bool.false_ne_true)]
      exact ⟨one_ne_zero, by intro t ht; cases t <;> simp_all [stepIndex]⟩
    · have h0 : ok .setupBuildEnvironment = true := hprev _ (by decide)
      have h1 : ok .downloadBaseSystem = true := hprev _ (by decide)
      have h2 : ok .configureSystem = true := hprev _ (by decide)
      have h3 : ok .installPackages = false := hs
      rw [buildIso, isoSequence, runIsoSteps, if_pos (by rw [h0]),
        runIsoSteps, if_pos (by rw [h1]), runIsoSteps, if_pos (by rw [h2]),
        runIsoSteps, if_neg (by rw [h3]; exact Bool.false_ne_true)]
      exact ⟨one_ne_zero, by intro t ht; cases t <;> simp_all [stepIndex]⟩
    · have h0 : ok .setupBuildEnvironment = true := hprev _ (by decide)
      have h1 : ok .downloadBaseSystem = true := hprev _ (by decide)
      have h2 : ok .configureSystem = true := hprev _ (by decide)
      have h3 : ok .installPackages = true := hprev _ (by decide)
      have h4 : ok .installNestOSComponents = false := hs
      rw [buildIso, isoSequence, runIsoSteps, if_pos (by rw [h0]),
        runIsoSteps, if_pos (by rw [h1]), runIsoSteps, if_pos (by rw [h2]),
        runIsoSteps, if_pos (by rw [h3]),
        runIsoSteps, if_neg (by rw [h4]; exact Bool.false_ne_true)]
      exact ⟨one_ne_zero, by intro t ht; cases t <;> simp_all [stepIndex]⟩
    · have h0 : ok .setupBuildEnvironment = true := hprev _ (by decide)
      have h1 : ok .downloadBaseSystem = true := hprev _ (by decide)
      have h2 : ok .configureSystem = true := hprev _ (by decide)
      have h3 : ok .installPackages = true := hprev _ (by decide)
      have h4 : ok .installNestOSComponents = true := hprev _ (by decide)
      have h5 : ok .createISO = false := hs
      rw [buildIso, isoSequence, runIsoSteps, if_pos (by rw [h0]),
        runIsoSteps, if_pos (by rw [h1]), runIsoSteps, if_pos (by rw [h2]),
        runIsoSteps, if_pos (by rw [h3]), runIsoSteps, if_pos (by rw [h4]),
        runIsoSteps, if_neg (by rw [h5]; exact Bool.false_ne_true)]
      exact ⟨one_ne_zero, by intro t ht; cases t <;> simp_all [stepIndex]⟩
  · intro h
    rw [buildIso, isoSequence, runIsoSteps, if_pos (by rw [h]),
      runIsoSteps, if_pos (by rw [h]), runIsoSteps, if_pos (by rw [h]),
      runIsoSteps, if_pos (by rw [h]), runIsoSteps, if_pos (by rw [h]),
      runIsoSteps, if_pos (by rw [h]), runIsoSteps]

/-- A run in which the third step (system configuration) fails. -/
def failAtConfigure : IsoStep → Bool := fun s => stepIndex s < 2

/-- Witness for C6: with the first two steps succeeding and configuration
failing, the exit code is non-zero and no later step executes. -/
theorem buildIso_abort_on_failure_witness :
    (buildIso failAtConfigure).2 ≠ 0 ∧
      ∀ t : IsoStep, stepIndex IsoStep.configureSystem < stepIndex t →
        t ∉ (buildIso failAtConfigure).1 :=
  (buildIso_abort_on_failure failAtConfigure).1 IsoStep.configureSystem
    (by decide) (by intro t ht; revert ht; cases t <;> decide)

/-! ## POST /containers port bindings (dockerRoutes) -/

/-- Decimal digits of a natural number, least significant first, as
characters; the fuel argument only needs to dominate the digit count. -/
def natToDecGo : ℕ → ℕ → List Char
  | 0, _ => []
  | _ + 1, 0 => []
  | fuel + 1, n + 1 => Nat.digitChar ((n + 1) % 10) :: natToDecGo fuel ((n + 1) / 10)

/-- JavaScript Number.prototype.toString for a natural number: its decimal
digit string. -/
def natToDec : ℕ → String
  | 0 => "0"
  | n + 1 => String.mk ((natToDecGo (n + 1) (n + 1)).reverse)

/-- Numeric value of a decimal digit character. -/
def charVal (c : Char) : ℕ := c.toNat - 48

/-- Value of a most-significant-first digit string. -/
def decVal (cs : List Char) : ℕ := cs.foldl (fun acc c => acc * 10 + charVal c) 0

lemma digitChar_toNat (d : ℕ) (hd : d < 10) : (Nat.digitChar d).toNat = 48 + d := by
  interval_cases d <;> rfl

lemma decVal_append (cs : List Char) (c : Char) :
    decVal (cs ++ [c]) = decVal cs * 10 + charVal c := by
  simp [decVal, List.foldl_append]

lemma natToDecGo_val :
    ∀ (fuel n : ℕ), n ≤ fuel → decVal ((natToDecGo fuel n).reverse) = n := by
  intro fuel
  induction fuel with
  | zero =>
    intro n hn
    have h0 : n = 0 := Nat.le_zero.mp hn
    subst h0
    rfl
  | succ f ih =>
    intro n hn
    match n with
    | 0 => rfl
    | m + 1 =>
      rw [natToDecGo, List.reverse_cons, decVal_append]
      have hdiv : (m + 1) / 10 ≤ f := by
        have := Nat.div_lt_self (Nat.succ_pos m) (by norm_num : 1 < 10)
        omega
      rw [ih ((m + 1) / 10) hdiv, charVal,
        digitChar_toNat ((m + 1) % 10) (Nat.mod_lt _ (by norm_num))]
      omega

lemma natToDec_val (n : ℕ) : decVal (natToDec n).data = n := by
  match n with
  | 0 => rfl
  | m + 1 =>
    show decVal ((natToDecGo (m + 1) (m + 1)).reverse) = m + 1
    exact natToDecGo_val (m + 1) (m + 1) le_rfl

lemma natToDec_inj : Function.Injective natToDec := by
  intro a b h
  have h2 : decVal (natToDec a).data = decVal (natToDec b).data := by rw [h]
  rwa [natToDec_val, natToDec_val] at h2

/-- The template-string key `${container}/tcp` of the handler. -/
def portKey (n : ℕ) : String := natToDec n ++ "/tcp"

lemma portKey_inj : Function.Injective portKey := by
  intro a b h
  apply natToDec_inj
  have hd : (natToDec a).data ++ "/tcp".data = (natToDec b).data ++ "/tcp".data := by
    have h2 := congrArg String.data h
    rwa [portKey, portKey, String.data_append, String.data_append] at h2
  have hdata : (natToDec a).data = (natToDec b).data := (List.append_inj' hd rfl).1
  calc natToDec a = ⟨(natToDec a).data⟩ := rfl
  _ = ⟨(natToDec b).data⟩ := by rw [hdata]
  _ = natToDec b := rfl

/-- JavaScript object property assignment on a keyed list: an existing key
is overwritten in place, a new key is appended. -/
def setKey {α : Type} (m : List (String × α)) (k : String) (v : α) :
    List (String × α) :=
  if m.any (fun p => decide (p.1 = k)) then
    m.map (fun p => if p.1 = k then (k, v) else p)
  else m ++ [(k, v)]

/-- JavaScript object property lookup on a keyed list. -/
def lookupKey {α : Type} (m : List (String × α)) (k : String) : Option α :=
  (m.find? (fun p => decide (p.1 = k))).map (fun p => p.2)

lemma lookupKey_cons_self {α : Type} (a : String × α) (l : List (String × α))
    (k : String) (ha : a.1 = k) : lookupKey (a :: l) k = some a.2 := by
  simp [lookupKey, List.find?_cons, ha]

lemma lookupKey_cons_of_ne {α : Type} (a : String × α) (l : List (String × α))
    (k : String) (ha : ¬a.1 = k) : lookupKey (a :: l) k = lookupKey l k := by
  simp [lookupKey, List.find?_cons, ha]

lemma lookup_map_set {α : Type} (k : String) (v : α) :
    ∀ m : List (String × α), m.any (fun p => decide (p.1 = k)) = true →
      lookupKey (m.map (fun p => if p.1 = k then (k, v) else p)) k = some v
  | [], h => by simp at h
  | a :: l, h => by
      by_cases ha : a.1 = k
      · rw [List.map_cons, if_pos ha, lookupKey_cons_self (k, v) _ k rfl]
      · rw [List.map_cons, if_neg ha, lookupKey_cons_of_ne a _ k ha]
        have h' : l.any (fun p => decide (p.1 = k)) = true := by
          simpa [List.any_cons, ha] using h
        exact lookup_map_set k v l h'

lemma lookup_append_single {α : Type} (k : String) (v : α) :
    ∀ m : List (String × α), (∀ p ∈ m, ¬p.1 = k) →
      lookupKey (m ++ [(k, v)]) k = some v
  | [], _ => by rw [List.nil_append, lookupKey_cons_self (k, v) [] k rfl]
  | a :: l, h => by
      rw [List.cons_append,
        lookupKey_cons_of_ne a _ k (h a (List.mem_cons_self a l))]
      exact lookup_append_single k v l (fun p hp => h p (List.mem_cons_of_mem a hp))

lemma lookup_map_preserve {α : Type} (k k' : String) (v : α) (hkk : k' ≠ k) :
    ∀ m : List (String × α),
      lookupKey (m.map (fun p => if p.1 = k' then (k', v) else p)) k =
        lookupKey m k
  | [] => rfl
  | a :: l => by
      by_cases ha : a.1 = k'
      · rw [List.map_cons, if_pos ha, lookupKey_cons_of_ne (k', v) _ k hkk,
          lookupKey_cons_of_ne a l k (fun h => hkk (ha.symm.trans h))]
        exact lookup_map_preserve k k' v hkk l
      · rw [List.map_cons, if_neg ha]
        by_cases hak : a.1 = k
        · rw [lookupKey_cons_self a _ k hak, lookupKey_cons_self a l k hak]
        · rw [lookupKey_cons_of_ne a _ k hak, lookupKey_cons_of_ne a l k hak]
          exact lookup_map_preserve k k' v hkk l

lemma lookup_append_single_ne {α : Type} (k k' : String) (v : α) (hkk : k' ≠ k) :
    ∀ m : List (String × α), lookupKey (m ++ [(k', v)]) k = lookupKey m k
  | [] => by rw [List.nil_append, lookupKey_cons_of_ne (k', v) [] k hkk]
  | a :: l => by
      rw [List.cons_append]
      by_cases hak : a.1 = k
      · rw [lookupKey_cons_self a _ k hak, lookupKey_cons_self a l k hak]
      · rw [lookupKey_cons_of_ne a _ k hak, lookupKey_cons_of_ne a l k hak]
        exact lookup_append_single_ne k k' v hkk l

lemma lookupKey_setKey_self {α : Type} (m : List (String × α)) (k : String)
    (v : α) : lookupKey (setKey m k v) k = some v := by
  rw [setKey]
  split_ifs with hany
  · exact lookup_map_set k v m hany
  · refine lookup_append_single k v m ?_
    intro p hp hpk
    exact hany (List.any_eq_true.mpr ⟨p, hp, by simp [hpk]⟩)

lemma lookupKey_setKey_ne {α : Type} (m : List (String × α)) (k k' : String)
    (v : α) (hkk : k' ≠ k) : lookupKey (setKey m k' v) k = lookupKey m k := by
  rw [setKey]
  split_ifs with hany
  · exact lookup_map_preserve k k' v hkk m
  · exact lookup_append_single_ne k k' v hkk m

/-- One entry of the ports array of a container-creation request. -/
structure PortSpec where
  container : ℕ
  host : ℕ
  deriving DecidableEq

/-- One HostPort binding object. -/
structure HostBinding where
  HostPort : String
  deriving DecidableEq

/-- The two objects the POST /containers handler accumulates. -/
structure PortConfig where
  exposedPorts : List (String × Unit)
  portBindings : List (String × List HostBinding)
  deriving DecidableEq

/-- Body of the ports?.forEach callback: assign the `${container}/tcp` key
in both objects, the binding being [{ HostPort: host.toString() }]. -/
def addPortSpec (cfg : PortConfig) (p : PortSpec) : PortConfig :=
  { exposedPorts := setKey cfg.exposedPorts (portKey p.container) ()
    portBindings := setKey cfg.portBindings (portKey p.container)
      [⟨natToDec p.host⟩] }

/-- The exposedPorts/portBindings objects derived from a creation request's
ports list (absent list meaning no iterations). -/
def buildPortConfig (ports : Option (List PortSpec)) : PortConfig :=
  (ports.getD []).foldl addPortSpec ⟨[], []⟩

lemma fold_lookup_preserve :
    ∀ (xs : List PortSpec) (cfg : PortConfig) (k : String),
      (∀ q ∈ xs, portKey q.container ≠ k) →
      lookupKey (xs.foldl addPortSpec cfg).portBindings k =
          lookupKey cfg.portBindings k ∧
        lookupKey (xs.foldl addPortSpec cfg).exposedPorts k =
          lookupKey cfg.exposedPorts k
  | [], _, _, _ => ⟨rfl, rfl⟩
  | x :: rest, cfg, k, h => by
      rw [List.foldl_cons]
      have hx : portKey x.container ≠ k := h x (List.mem_cons_self x rest)
      have ih := fold_lookup_preserve rest (addPortSpec cfg x) k
        (fun q hq => h q (List.mem_cons_of_mem x hq))
      exact ⟨ih.1.trans (lookupKey_setKey_ne _ _ _ _ hx),
        ih.2.trans (lookupKey_setKey_ne _ _ _ _ hx)⟩

lemma fold_lookup_mem :
    ∀ (xs : List PortSpec) (cfg : PortConfig) (p : PortSpec),
      p ∈ xs → (xs.map (fun q => q.container)).Nodup →
      lookupKey (xs.foldl addPortSpec cfg).portBindings (portKey p.container) =
          some [⟨natToDec p.host⟩] ∧
        lookupKey (xs.foldl addPortSpec cfg).exposedPorts (portKey p.container) =
          some ()
  | [], _, p, hp, _ => absurd hp (List.not_mem_nil p)
  | x :: rest, cfg, p, hp, hnd => by
      rw [List.map_cons, List.nodup_cons] at hnd
      rw [List.foldl_cons]
      rcases List.mem_cons.mp hp with hpx | hpr
      · subst hpx
        have hne : ∀ q ∈ rest, portKey q.container ≠ portKey p.container := by
          intro q hq hk
          exact hnd.1 (List.mem_map.mpr ⟨q, hq, portKey_inj hk⟩)
        have hpres := fold_lookup_preserve rest (addPortSpec cfg p)
          (portKey p.container) hne
        exact ⟨hpres.1.trans (lookupKey_setKey_self _ _ _),
          hpres.2.trans (lookupKey_setKey_self _ _ _)⟩
      · exact fold_lookup_mem rest (addPortSpec cfg x) p hpr hnd.2

/-- C7 amended: when the entries' container ports are pairwise distinct,
every entry {container, host} yields the key `container/tcp` in both the
exposed-ports object and the bindings object, the latter bound to the
decimal string of host.  (With a repeated container port the last entry
wins, which is what the counterexample exhibits.) -/
theorem portBindings_per_entry (l : List PortSpec)
    (h : (l.map (fun p => p.container)).Nodup) (p : PortSpec) (hp : p ∈ l) :
    lookupKey (buildPortConfig (some l)).portBindings (portKey p.container) =
        some [⟨natToDec p.host⟩] ∧
      lookupKey (buildPortConfig (some l)).exposedPorts (portKey p.container) =
        some () :=
  fold_lookup_mem l ⟨[], []⟩ p hp h

/-- Two entries sharing container port 80 with different hosts. -/
def dupPorts : List PortSpec := [⟨80, 1⟩, ⟨80, 2⟩]

/-- C7 counterexample: with two entries for container port 80 the claim
fails for the first entry — the binding carries the second host, not the
first. -/
theorem portBindings_dup_cex :
    ¬∀ p ∈ dupPorts,
      lookupKey (buildPortConfig (some dupPorts)).portBindings
        (portKey p.container) = some [⟨natToDec p.host⟩] := by
  decide

/-- Witness for C7 at the ports list of the claim: [{container: 80,
host: 8080}] maps "80/tcp" to host port "8080". -/
theorem portBindings_per_entry_witness :
    lookupKey (buildPortConfig (some [⟨80, 8080⟩])).portBindings "80/tcp" =
        some [⟨"8080"⟩] ∧
      lookupKey (buildPortConfig (some [⟨80, 8080⟩])).exposedPorts "80/tcp" =
        some () := by
  have h := portBindings_per_entry [⟨80, 8080⟩] (by decide) ⟨80, 8080⟩ (by decide)
  have hk : portKey 80 = "80/tcp" := by decide
  have hh : natToDec 8080 = "8080" := by decide
  rw [hk, hh] at h
  exact h

/-! ## POST /performance memory-speed parsing (systemRoutes) -/

/-- The character class [0-9.] of the throughput regex. -/
def isDigitDot (c : Char) : Bool := c.isDigit || c == '.'

/-- Whether the first list opens the second. -/
def beginsWith : List Char → List Char → Bool
  | [], _ => true
  | _ :: _, [] => false
  | p :: ps, c :: cs => p == c && beginsWith ps cs

/-- The literal tail " GB/s" of the regex. -/
def gbsTail : List Char := [' ', 'G', 'B', '/', 's']

/-- One attempt of /([0-9.]+) GB\/s/ at the current position: the capture
takes the maximal run of [0-9.] here (backtracking cannot shorten it — a
shorter run leaves a class character where the space of " GB/s" must
stand), the run must be nonempty and followed by " GB/s". -/
def matchGBsAt (cs : List Char) : Option (List Char) :=
  let run := cs.takeWhile isDigitDot
  if run ≠ [] ∧ beginsWith gbsTail (cs.dropWhile isDigitDot) = true then some run
  else none

/-- RegExp match over a string: attempt every start position left to right
and return the first capture. -/
def jsMatchGBs : List Char → Option (List Char)
  | [] => none
  | c :: cs =>
    match matchGBsAt (c :: cs) with
    | some run => some run
    | none => jsMatchGBs cs

/-- Value of a digit run read left to right. -/
def digitsToNum (cs : List Char) : ℚ :=
  cs.foldl (fun acc c => acc * 10 + ((c.toNat - 48 : ℕ) : ℚ)) 0

/-- Value of a fractional digit run. -/
def fracToNum (cs : List Char) : ℚ :=
  cs.foldr (fun c acc => (((c.toNat - 48 : ℕ) : ℚ) + acc) / 10) 0

/-- parseFloat, modelled for the unsigned decimal strings this handler
feeds it: the regex capture (a nonempty run of digits and dots) or the
literal fallback "0".  The longest valid prefix digits[.digits] is parsed;
with no integer digit and no fractional digit the result is NaN.  Signs,
exponents and leading whitespace cannot occur in these inputs and are not
modelled. -/
def jsParseFloat (s : String) : JSNum :=
  let cs := s.data
  let intPart := cs.takeWhile Char.isDigit
  let rest := cs.dropWhile Char.isDigit
  match rest with
  | '.' :: rest2 =>
    let fracPart := rest2.takeWhile Char.isDigit
    if intPart = [] ∧ fracPart = [] then JSNum.nan
    else JSNum.num (digitsToNum intPart + fracToNum fracPart)
  | _ => if intPart = [] then JSNum.nan else JSNum.num (digitsToNum intPart)

/-- The memory read/write speed derived from a dd stdout:
parseFloat(stdout.match(/([0-9.]+) GB\/s/)?.[1] || '0') * 1024. -/
def memSpeedFromStdout (stdout : String) : JSNum :=
  JSNum.mul
    (jsParseFloat
      (((jsMatchGBs stdout.data).map (fun cs => String.mk cs)).getD "0"))
    (JSNum.num 1024)

/-- C8: the speed comes from the regex capture scaled by 1024, and a
stdout with no match degrades to exactly 0 instead of failing. -/
theorem memSpeed_regex (s : String) :
    (jsMatchGBs s.data = none → memSpeedFromStdout s = JSNum.num 0) ∧
    (∀ run, jsMatchGBs s.data = some run →
      memSpeedFromStdout s =
        JSNum.mul (jsParseFloat (String.mk run)) (JSNum.num 1024)) := by
  constructor
  · intro h
    rw [memSpeedFromStdout, h]
    have h0 : jsParseFloat "0" = JSNum.num (digitsToNum ['0']) := rfl
    have h1 : digitsToNum ['0'] = 0 := by
      rw [digitsToNum, List.foldl_cons, List.foldl_nil]
      have h2 : ('0'.toNat - 48 : ℕ) = 0 := by decide
      rw [h2]
      norm_num
    show JSNum.mul (jsParseFloat "0") (JSNum.num 1024) = JSNum.num 0
    rw [h0, h1, jsnum_mul_num_num]
    norm_num
  · intro run h
    rw [memSpeedFromStdout, h]
    rfl

/-- Witness for C8 at a stdout with no throughput figure. -/
theorem memSpeed_regex_witness : memSpeedFromStdout "done" = JSNum.num 0 :=
  (memSpeed_regex "done").1 (by decide)

end Nasos
